import Mathlib

/-!
Verification of the generative-arts gallery against its natural-language
specification.  The development shallowly embeds the catalog module
(`artworks`, `getArtwork`), the sketch registry (`sketches`, `getSketch`),
the artwork page (`ArtPage`), the canvas-mounting wrapper (`P5Wrapper`),
and the per-frame algorithms of the cellular-automata, L-system and
Hilbert-curve sketches.  Sketch lifecycle-hook bodies are imperative
drawing code; they are abstracted as opaque string tags, while the hook
*assignment* structure of every registered sketch is embedded faithfully.
-/

namespace GenArt

/-- The `difficulty` field of an artwork is the union type
`'easy' | 'medium' | 'hard'` (src/unnamed/part_000, interface `Artwork`). -/
inductive Difficulty where
  | easy
  | medium
  | hard
deriving DecidableEq, Repr

/-- The `Artwork` interface (src/unnamed/part_000): catalog metadata record. -/
structure Artwork where
  id : String
  title : String
  titleJa : String
  description : String
  descriptionJa : String
  difficulty : Difficulty
  tags : List String
deriving DecidableEq, Repr

/-- The static artwork catalog (src/unnamed/part_000, `artworks`), in source order. -/
def artworks : List Artwork := [
  { id := "flow-fields",
    title := "Flow Fields",
    titleJa := "フローフィールド",
    description := "Thousands of particles flow through an invisible vector field, creating organic, painterly trails reminiscent of Van Gogh\x27s brushwork.",
    descriptionJa := "画面全体に目に見えない「風の流れ」のようなベクトル場を作り、その上を数千個の粒子が移動して軌跡を描くアートです。",
    difficulty := Difficulty.easy,
    tags := ["Perlin Noise", "Particles", "Organic"] },
  { id := "physarum",
    title := "Physarum Simulation",
    titleJa := "フィザラム・シミュレーション（粘菌）",
    description := "Simulating the behavior of slime mold (Physarum polycephalum) as it creates efficient networks, resembling blood vessels or city roads.",
    descriptionJa := "単細胞生物である「粘菌」が餌を求めてネットワークを作る様子を模倣したアルゴリズムです。",
    difficulty := Difficulty.hard,
    tags := ["Agent-based", "Pixel Manipulation", "Biology"] },
  { id := "reaction-diffusion",
    title := "Reaction-Diffusion",
    titleJa := "反応拡散系",
    description := "Simulating two chemicals reacting and diffusing (Gray-Scott model), creating patterns seen in zebra stripes, coral, and fingerprints.",
    descriptionJa := "2つの化学物質が反応し合いながら拡散していく様子をシミュレーションします（グレイ・スコット・モデル）。",
    difficulty := Difficulty.hard,
    tags := ["Cellular Automata", "Convolution", "Mathematics"] },
  { id := "strange-attractors",
    title := "Strange Attractors",
    titleJa := "ストレンジ・アトラクタ",
    description := "Visualizing chaotic systems through mathematical equations, revealing butterfly-like structures in 3D space (Lorenz Attractor).",
    descriptionJa := "カオス理論に基づいた数式を用いて、3次元空間に点を打ち続けることで現れる奇妙な軌道を描画します。",
    difficulty := Difficulty.medium,
    tags := ["WEBGL", "Differential Equations", "3D"] },
  { id := "recursive-subdivision",
    title := "Recursive Subdivision",
    titleJa := "再帰的な分割",
    description := "Randomly dividing the canvas recursively, creating geometric patterns similar to Mondrian paintings or aerial city views.",
    descriptionJa := "画面をランダムに分割し、分割されたエリアをさらに分割…と繰り返す手法です。",
    difficulty := Difficulty.easy,
    tags := ["Recursion", "Geometry", "Mondrian"] },
  { id := "circle-packing",
    title := "Circle Packing",
    titleJa := "サークル・パッキング",
    description := "Filling space with non-overlapping circles that grow until they touch, creating organic cell-like or bubble patterns.",
    descriptionJa := "円同士が重ならないように、空間が埋まるまで新しい円を配置・成長させ続ける手法です。",
    difficulty := Difficulty.medium,
    tags := ["Collision Detection", "Optimization", "Organic"] },
  { id := "kinetic-typography",
    title := "Kinetic Typography",
    titleJa := "キネティック・タイポグラフィ",
    description := "Interactive text where letter particles react to mouse movement, scattering and reforming dynamically.",
    descriptionJa := "文字を構成する点をパーティクルとして扱い、マウスの動きに反応して弾け飛んだり、元に戻ったりするインタラクティブな文字表現です。",
    difficulty := Difficulty.medium,
    tags := ["Typography", "Physics", "Interactive"] },
  { id := "audio-reactive",
    title := "Audio Reactive",
    titleJa := "オーディオ・リアクティブ",
    description := "Visualizing microphone input or music through pulsating shapes and waveforms that respond to sound frequencies.",
    descriptionJa := "マイク入力や音楽ファイルの波形・周波数を解析し、ビジュアルに変換します。",
    difficulty := Difficulty.medium,
    tags := ["FFT", "Audio", "Polar Coordinates"] },
  { id := "shader-art",
    title := "Shader Art",
    titleJa := "シェーダーアート",
    description := "Using GLSL shaders for GPU-accelerated effects, enabling fluid simulations and raymarching at high performance.",
    descriptionJa := "p5.js上でGLSL（シェーダー言語）を動かします。",
    difficulty := Difficulty.hard,
    tags := ["GLSL", "GPU", "Fragment Shader"] },
  { id := "vector-morphing",
    title := "Vector Morphing",
    titleJa := "ベクトル・モーフィング",
    description := "Smoothly transitioning between different shapes by interpolating vertex positions, creating mesmerizing transformations.",
    descriptionJa := "ある図形から別の図形へ、頂点の座標をスムーズに移動させて変形させます。",
    difficulty := Difficulty.easy,
    tags := ["Lerp", "Animation", "Shapes"] }
]

/-- `getArtwork` (src/unnamed/part_000): `artworks.find(art => art.id === id)`. -/
def getArtwork (id : String) : Option Artwork :=
  artworks.find? fun art => art.id == id

/-- The lifecycle-hook slots of a p5 instance that the sketches of this
repository assign (`p.setup = ...`, `p.draw = ...`, ...).  A p5 instance is
created with none of them assigned; a hook body is an opaque tag. -/
structure P5Hooks where
  setup : Option String := none
  draw : Option String := none
  mousePressed : Option String := none
  keyPressed : Option String := none
  windowResized : Option String := none
  mouseDragged : Option String := none
  mouseReleased : Option String := none
  mouseWheel : Option String := none
deriving DecidableEq, Repr

/-- A fresh p5 instance before the sketch function runs: no hooks assigned. -/
def freshP5 : P5Hooks := {}

/-- `Sketch` (src/src/components/P5Wrapper.tsx): `(p: p5) => void`, a function
run once on the p5 instance; its observable effect on the lifecycle slots is
embedded as a function on the hook record. -/
abbrev Sketch : Type := P5Hooks → P5Hooks

/-- Sketch function registered under key "flow-fields"; assigns its lifecycle hooks
on the p5 instance (hook bodies abstracted as opaque tags). -/
def flowFieldsSketch : Sketch := fun p =>
  { p with
    setup := some "flowFieldsSketch.setup",
    draw := some "flowFieldsSketch.draw",
    windowResized := some "flowFieldsSketch.windowResized",
    mousePressed := some "flowFieldsSketch.mousePressed" }

/-- Sketch function registered under key "physarum"; assigns its lifecycle hooks
on the p5 instance (hook bodies abstracted as opaque tags). -/
def physarumSketch : Sketch := fun p =>
  { p with
    setup := some "physarumSketch.setup",
    draw := some "physarumSketch.draw",
    windowResized := some "physarumSketch.windowResized",
    mousePressed := some "physarumSketch.mousePressed" }

/-- Sketch function registered under key "reaction-diffusion"; assigns its lifecycle hooks
on the p5 instance (hook bodies abstracted as opaque tags). -/
def reactionDiffusionSketch : Sketch := fun p =>
  { p with
    setup := some "reactionDiffusionSketch.setup",
    draw := some "reactionDiffusionSketch.draw",
    windowResized := some "reactionDiffusionSketch.windowResized",
    mouseDragged := some "reactionDiffusionSketch.mouseDragged" }

/-- Sketch function registered under key "strange-attractors"; assigns its lifecycle hooks
on the p5 instance (hook bodies abstracted as opaque tags). -/
def strangeAttractorsSketch : Sketch := fun p =>
  { p with
    setup := some "strangeAttractorsSketch.setup",
    draw := some "strangeAttractorsSketch.draw",
    mouseDragged := some "strangeAttractorsSketch.mouseDragged",
    mouseWheel := some "strangeAttractorsSketch.mouseWheel",
    windowResized := some "strangeAttractorsSketch.windowResized",
    mousePressed := some "strangeAttractorsSketch.mousePressed" }

/-- Sketch function registered under key "recursive-subdivision"; assigns its lifecycle hooks
on the p5 instance (hook bodies abstracted as opaque tags). -/
def recursiveSubdivisionSketch : Sketch := fun p =>
  { p with
    setup := some "recursiveSubdivisionSketch.setup",
    windowResized := some "recursiveSubdivisionSketch.windowResized",
    mousePressed := some "recursiveSubdivisionSketch.mousePressed" }

/-- Sketch function registered under key "circle-packing"; assigns its lifecycle hooks
on the p5 instance (hook bodies abstracted as opaque tags). -/
def circlePackingSketch : Sketch := fun p =>
  { p with
    setup := some "circlePackingSketch.setup",
    draw := some "circlePackingSketch.draw",
    windowResized := some "circlePackingSketch.windowResized",
    mousePressed := some "circlePackingSketch.mousePressed" }

/-- Sketch function registered under key "kinetic-typography"; assigns its lifecycle hooks
on the p5 instance (hook bodies abstracted as opaque tags). -/
def kineticTypographySketch : Sketch := fun p =>
  { p with
    setup := some "kineticTypographySketch.setup",
    draw := some "kineticTypographySketch.draw",
    windowResized := some "kineticTypographySketch.windowResized",
    mousePressed := some "kineticTypographySketch.mousePressed" }

/-- Sketch function registered under key "audio-reactive"; assigns its lifecycle hooks
on the p5 instance (hook bodies abstracted as opaque tags). -/
def audioReactiveSketch : Sketch := fun p =>
  { p with
    setup := some "audioReactiveSketch.setup",
    draw := some "audioReactiveSketch.draw",
    windowResized := some "audioReactiveSketch.windowResized",
    mousePressed := some "audioReactiveSketch.mousePressed" }

/-- Sketch function registered under key "shader-art"; assigns its lifecycle hooks
on the p5 instance (hook bodies abstracted as opaque tags). -/
def shaderArtSketch : Sketch := fun p =>
  { p with
    setup := some "shaderArtSketch.setup",
    draw := some "shaderArtSketch.draw",
    windowResized := some "shaderArtSketch.windowResized" }

/-- Sketch function registered under key "vector-morphing"; assigns its lifecycle hooks
on the p5 instance (hook bodies abstracted as opaque tags). -/
def vectorMorphingSketch : Sketch := fun p =>
  { p with
    setup := some "vectorMorphingSketch.setup",
    draw := some "vectorMorphingSketch.draw",
    windowResized := some "vectorMorphingSketch.windowResized",
    mousePressed := some "vectorMorphingSketch.mousePressed" }

/-- Sketch function registered under key "constellation"; assigns its lifecycle hooks
on the p5 instance (hook bodies abstracted as opaque tags). -/
def constellationSketch : Sketch := fun p =>
  { p with
    setup := some "constellationSketch.setup",
    draw := some "constellationSketch.draw",
    windowResized := some "constellationSketch.windowResized",
    mousePressed := some "constellationSketch.mousePressed" }

/-- Sketch function registered under key "voronoi"; assigns its lifecycle hooks
on the p5 instance (hook bodies abstracted as opaque tags). -/
def voronoiSketch : Sketch := fun p =>
  { p with
    setup := some "voronoiSketch.setup",
    draw := some "voronoiSketch.draw",
    windowResized := some "voronoiSketch.windowResized",
    mousePressed := some "voronoiSketch.mousePressed" }

/-- Sketch function registered under key "wireframe-terrain"; assigns its lifecycle hooks
on the p5 instance (hook bodies abstracted as opaque tags). -/
def wireframeTerrainSketch : Sketch := fun p =>
  { p with
    setup := some "wireframeTerrainSketch.setup",
    draw := some "wireframeTerrainSketch.draw",
    windowResized := some "wireframeTerrainSketch.windowResized",
    mousePressed := some "wireframeTerrainSketch.mousePressed" }

/-- Sketch function registered under key "magnetic-grid"; assigns its lifecycle hooks
on the p5 instance (hook bodies abstracted as opaque tags). -/
def magneticGridSketch : Sketch := fun p =>
  { p with
    setup := some "magneticGridSketch.setup",
    draw := some "magneticGridSketch.draw",
    windowResized := some "magneticGridSketch.windowResized",
    mousePressed := some "magneticGridSketch.mousePressed" }

/-- Sketch function registered under key "liquid-blobs"; assigns its lifecycle hooks
on the p5 instance (hook bodies abstracted as opaque tags). -/
def liquidBlobsSketch : Sketch := fun p =>
  { p with
    setup := some "liquidBlobsSketch.setup",
    draw := some "liquidBlobsSketch.draw",
    windowResized := some "liquidBlobsSketch.windowResized",
    mousePressed := some "liquidBlobsSketch.mousePressed" }

/-- Sketch function registered under key "ascii-rain"; assigns its lifecycle hooks
on the p5 instance (hook bodies abstracted as opaque tags). -/
def asciiRainSketch : Sketch := fun p =>
  { p with
    setup := some "asciiRainSketch.setup",
    draw := some "asciiRainSketch.draw",
    windowResized := some "asciiRainSketch.windowResized",
    mousePressed := some "asciiRainSketch.mousePressed" }

/-- Sketch function registered under key "cursor-trail"; assigns its lifecycle hooks
on the p5 instance (hook bodies abstracted as opaque tags). -/
def cursorTrailSketch : Sketch := fun p =>
  { p with
    setup := some "cursorTrailSketch.setup",
    draw := some "cursorTrailSketch.draw",
    mousePressed := some "cursorTrailSketch.mousePressed",
    windowResized := some "cursorTrailSketch.windowResized" }

/-- Sketch function registered under key "parallax-particles"; assigns its lifecycle hooks
on the p5 instance (hook bodies abstracted as opaque tags). -/
def parallaxParticlesSketch : Sketch := fun p =>
  { p with
    setup := some "parallaxParticlesSketch.setup",
    draw := some "parallaxParticlesSketch.draw",
    windowResized := some "parallaxParticlesSketch.windowResized",
    mousePressed := some "parallaxParticlesSketch.mousePressed" }

/-- Sketch function registered under key "geometric-wave"; assigns its lifecycle hooks
on the p5 instance (hook bodies abstracted as opaque tags). -/
def geometricWaveSketch : Sketch := fun p =>
  { p with
    setup := some "geometricWaveSketch.setup",
    draw := some "geometricWaveSketch.draw",
    windowResized := some "geometricWaveSketch.windowResized",
    mousePressed := some "geometricWaveSketch.mousePressed" }

/-- Sketch function registered under key "glitch-effect"; assigns its lifecycle hooks
on the p5 instance (hook bodies abstracted as opaque tags). -/
def glitchEffectSketch : Sketch := fun p =>
  { p with
    setup := some "glitchEffectSketch.setup",
    draw := some "glitchEffectSketch.draw",
    windowResized := some "glitchEffectSketch.windowResized",
    mousePressed := some "glitchEffectSketch.mousePressed" }

/-- Sketch function registered under key "superformula"; assigns its lifecycle hooks
on the p5 instance (hook bodies abstracted as opaque tags). -/
def superformulaSketch : Sketch := fun p =>
  { p with
    setup := some "superformulaSketch.setup",
    draw := some "superformulaSketch.draw",
    windowResized := some "superformulaSketch.windowResized",
    mousePressed := some "superformulaSketch.mousePressed" }

/-- Sketch function registered under key "fourier-series"; assigns its lifecycle hooks
on the p5 instance (hook bodies abstracted as opaque tags). -/
def fourierSeriesSketch : Sketch := fun p =>
  { p with
    setup := some "fourierSeriesSketch.setup",
    draw := some "fourierSeriesSketch.draw",
    mousePressed := some "fourierSeriesSketch.mousePressed",
    mouseDragged := some "fourierSeriesSketch.mouseDragged",
    mouseReleased := some "fourierSeriesSketch.mouseReleased",
    windowResized := some "fourierSeriesSketch.windowResized" }

/-- Sketch function registered under key "phyllotaxis"; assigns its lifecycle hooks
on the p5 instance (hook bodies abstracted as opaque tags). -/
def phyllotaxisSketch : Sketch := fun p =>
  { p with
    setup := some "phyllotaxisSketch.setup",
    draw := some "phyllotaxisSketch.draw",
    keyPressed := some "phyllotaxisSketch.keyPressed",
    windowResized := some "phyllotaxisSketch.windowResized",
    mousePressed := some "phyllotaxisSketch.mousePressed" }

/-- Sketch function registered under key "de-jong-attractor"; assigns its lifecycle hooks
on the p5 instance (hook bodies abstracted as opaque tags). -/
def deJongAttractorSketch : Sketch := fun p =>
  { p with
    setup := some "deJongAttractorSketch.setup",
    draw := some "deJongAttractorSketch.draw",
    keyPressed := some "deJongAttractorSketch.keyPressed",
    mousePressed := some "deJongAttractorSketch.mousePressed",
    windowResized := some "deJongAttractorSketch.windowResized" }

/-- Sketch function registered under key "maurer-rose"; assigns its lifecycle hooks
on the p5 instance (hook bodies abstracted as opaque tags). -/
def maurerRoseSketch : Sketch := fun p =>
  { p with
    setup := some "maurerRoseSketch.setup",
    draw := some "maurerRoseSketch.draw",
    mousePressed := some "maurerRoseSketch.mousePressed",
    keyPressed := some "maurerRoseSketch.keyPressed",
    windowResized := some "maurerRoseSketch.windowResized" }

/-- Sketch function registered under key "voronoi-delaunay"; assigns its lifecycle hooks
on the p5 instance (hook bodies abstracted as opaque tags). -/
def voronoiDelaunaySketch : Sketch := fun p =>
  { p with
    setup := some "voronoiDelaunaySketch.setup",
    draw := some "voronoiDelaunaySketch.draw",
    mousePressed := some "voronoiDelaunaySketch.mousePressed",
    keyPressed := some "voronoiDelaunaySketch.keyPressed",
    windowResized := some "voronoiDelaunaySketch.windowResized" }

/-- Sketch function registered under key "complex-domain-coloring"; assigns its lifecycle hooks
on the p5 instance (hook bodies abstracted as opaque tags). -/
def complexDomainColoringSketch : Sketch := fun p =>
  { p with
    setup := some "complexDomainColoringSketch.setup",
    draw := some "complexDomainColoringSketch.draw",
    mousePressed := some "complexDomainColoringSketch.mousePressed",
    mouseDragged := some "complexDomainColoringSketch.mouseDragged",
    mouseReleased := some "complexDomainColoringSketch.mouseReleased",
    mouseWheel := some "complexDomainColoringSketch.mouseWheel",
    keyPressed := some "complexDomainColoringSketch.keyPressed",
    windowResized := some "complexDomainColoringSketch.windowResized" }

/-- Sketch function registered under key "chladni-patterns"; assigns its lifecycle hooks
on the p5 instance (hook bodies abstracted as opaque tags). -/
def chladniPatternsSketch : Sketch := fun p =>
  { p with
    setup := some "chladniPatternsSketch.setup",
    draw := some "chladniPatternsSketch.draw",
    keyPressed := some "chladniPatternsSketch.keyPressed",
    mousePressed := some "chladniPatternsSketch.mousePressed",
    windowResized := some "chladniPatternsSketch.windowResized" }

/-- Sketch function registered under key "apollonian-gasket"; assigns its lifecycle hooks
on the p5 instance (hook bodies abstracted as opaque tags). -/
def apollonianGasketSketch : Sketch := fun p =>
  { p with
    setup := some "apollonianGasketSketch.setup",
    draw := some "apollonianGasketSketch.draw",
    mousePressed := some "apollonianGasketSketch.mousePressed",
    keyPressed := some "apollonianGasketSketch.keyPressed",
    windowResized := some "apollonianGasketSketch.windowResized" }

/-- Sketch function registered under key "marching-squares"; assigns its lifecycle hooks
on the p5 instance (hook bodies abstracted as opaque tags). -/
def marchingSquaresSketch : Sketch := fun p =>
  { p with
    setup := some "marchingSquaresSketch.setup",
    draw := some "marchingSquaresSketch.draw",
    keyPressed := some "marchingSquaresSketch.keyPressed",
    mousePressed := some "marchingSquaresSketch.mousePressed",
    windowResized := some "marchingSquaresSketch.windowResized" }

/-- Sketch function registered under key "levy-flight"; assigns its lifecycle hooks
on the p5 instance (hook bodies abstracted as opaque tags). -/
def levyFlightSketch : Sketch := fun p =>
  { p with
    setup := some "levyFlightSketch.setup",
    draw := some "levyFlightSketch.draw",
    mousePressed := some "levyFlightSketch.mousePressed",
    keyPressed := some "levyFlightSketch.keyPressed",
    windowResized := some "levyFlightSketch.windowResized" }

/-- Sketch function registered under key "gravitational-attractor"; assigns its lifecycle hooks
on the p5 instance (hook bodies abstracted as opaque tags). -/
def gravitationalAttractorSketch : Sketch := fun p =>
  { p with
    setup := some "gravitationalAttractorSketch.setup",
    draw := some "gravitationalAttractorSketch.draw",
    mousePressed := some "gravitationalAttractorSketch.mousePressed",
    keyPressed := some "gravitationalAttractorSketch.keyPressed",
    windowResized := some "gravitationalAttractorSketch.windowResized" }

/-- Sketch function registered under key "double-pendulum"; assigns its lifecycle hooks
on the p5 instance (hook bodies abstracted as opaque tags). -/
def doublePendulumSketch : Sketch := fun p =>
  { p with
    setup := some "doublePendulumSketch.setup",
    draw := some "doublePendulumSketch.draw",
    mousePressed := some "doublePendulumSketch.mousePressed",
    keyPressed := some "doublePendulumSketch.keyPressed",
    windowResized := some "doublePendulumSketch.windowResized" }

/-- Sketch function registered under key "particle-painting"; assigns its lifecycle hooks
on the p5 instance (hook bodies abstracted as opaque tags). -/
def particlePaintingSketch : Sketch := fun p =>
  { p with
    setup := some "particlePaintingSketch.setup",
    draw := some "particlePaintingSketch.draw",
    mousePressed := some "particlePaintingSketch.mousePressed",
    mouseReleased := some "particlePaintingSketch.mouseReleased",
    mouseDragged := some "particlePaintingSketch.mouseDragged",
    keyPressed := some "particlePaintingSketch.keyPressed",
    windowResized := some "particlePaintingSketch.windowResized" }

/-- Sketch function registered under key "autonomous-agents"; assigns its lifecycle hooks
on the p5 instance (hook bodies abstracted as opaque tags). -/
def autonomousAgentsSketch : Sketch := fun p =>
  { p with
    setup := some "autonomousAgentsSketch.setup",
    draw := some "autonomousAgentsSketch.draw",
    mousePressed := some "autonomousAgentsSketch.mousePressed",
    keyPressed := some "autonomousAgentsSketch.keyPressed",
    windowResized := some "autonomousAgentsSketch.windowResized" }

/-- Sketch function registered under key "flocking"; assigns its lifecycle hooks
on the p5 instance (hook bodies abstracted as opaque tags). -/
def flockingSketch : Sketch := fun p =>
  { p with
    setup := some "flockingSketch.setup",
    draw := some "flockingSketch.draw",
    mousePressed := some "flockingSketch.mousePressed",
    keyPressed := some "flockingSketch.keyPressed",
    windowResized := some "flockingSketch.windowResized" }

/-- Sketch function registered under key "cellular-automata"; assigns its lifecycle hooks
on the p5 instance (hook bodies abstracted as opaque tags). -/
def cellularAutomataSketch : Sketch := fun p =>
  { p with
    setup := some "cellularAutomataSketch.setup",
    draw := some "cellularAutomataSketch.draw",
    mousePressed := some "cellularAutomataSketch.mousePressed",
    keyPressed := some "cellularAutomataSketch.keyPressed",
    windowResized := some "cellularAutomataSketch.windowResized" }

/-- Sketch function registered under key "fractal-tree"; assigns its lifecycle hooks
on the p5 instance (hook bodies abstracted as opaque tags). -/
def fractalTreeSketch : Sketch := fun p =>
  { p with
    setup := some "fractalTreeSketch.setup",
    draw := some "fractalTreeSketch.draw",
    keyPressed := some "fractalTreeSketch.keyPressed",
    windowResized := some "fractalTreeSketch.windowResized" }

/-- Sketch function registered under key "genetic-algorithm"; assigns its lifecycle hooks
on the p5 instance (hook bodies abstracted as opaque tags). -/
def geneticAlgorithmSketch : Sketch := fun p =>
  { p with
    setup := some "geneticAlgorithmSketch.setup",
    draw := some "geneticAlgorithmSketch.draw",
    mousePressed := some "geneticAlgorithmSketch.mousePressed",
    keyPressed := some "geneticAlgorithmSketch.keyPressed",
    windowResized := some "geneticAlgorithmSketch.windowResized" }

/-- Sketch function registered under key "neural-creatures"; assigns its lifecycle hooks
on the p5 instance (hook bodies abstracted as opaque tags). -/
def neuralCreaturesSketch : Sketch := fun p =>
  { p with
    setup := some "neuralCreaturesSketch.setup",
    draw := some "neuralCreaturesSketch.draw",
    mousePressed := some "neuralCreaturesSketch.mousePressed",
    keyPressed := some "neuralCreaturesSketch.keyPressed",
    windowResized := some "neuralCreaturesSketch.windowResized" }

/-- Sketch function registered under key "truchet-tiles"; assigns its lifecycle hooks
on the p5 instance (hook bodies abstracted as opaque tags). -/
def truchetTilesSketch : Sketch := fun p =>
  { p with
    setup := some "truchetTiles.setup",
    draw := some "truchetTiles.draw",
    mousePressed := some "truchetTiles.mousePressed",
    keyPressed := some "truchetTiles.keyPressed",
    windowResized := some "truchetTiles.windowResized" }

/-- Sketch function registered under key "islamic-geometry"; assigns its lifecycle hooks
on the p5 instance (hook bodies abstracted as opaque tags). -/
def islamicGeometrySketch : Sketch := fun p =>
  { p with
    setup := some "islamicGeometry.setup",
    draw := some "islamicGeometry.draw",
    mousePressed := some "islamicGeometry.mousePressed",
    keyPressed := some "islamicGeometry.keyPressed",
    windowResized := some "islamicGeometry.windowResized" }

/-- Sketch function registered under key "quadtree-subdivision"; assigns its lifecycle hooks
on the p5 instance (hook bodies abstracted as opaque tags). -/
def quadtreeSubdivisionSketch : Sketch := fun p =>
  { p with
    setup := some "quadtreeSubdivision.setup",
    draw := some "quadtreeSubdivision.draw",
    mousePressed := some "quadtreeSubdivision.mousePressed",
    keyPressed := some "quadtreeSubdivision.keyPressed",
    windowResized := some "quadtreeSubdivision.windowResized" }

/-- Sketch function registered under key "moire-patterns"; assigns its lifecycle hooks
on the p5 instance (hook bodies abstracted as opaque tags). -/
def moirePatternsSketch : Sketch := fun p =>
  { p with
    setup := some "moirePatterns.setup",
    draw := some "moirePatterns.draw",
    keyPressed := some "moirePatterns.keyPressed",
    windowResized := some "moirePatterns.windowResized" }

/-- Sketch function registered under key "l-system"; assigns its lifecycle hooks
on the p5 instance (hook bodies abstracted as opaque tags). -/
def lSystemSketch : Sketch := fun p =>
  { p with
    setup := some "lSystem.setup",
    draw := some "lSystem.draw",
    mousePressed := some "lSystem.mousePressed",
    keyPressed := some "lSystem.keyPressed",
    windowResized := some "lSystem.windowResized" }

/-- Sketch function registered under key "isometric-projection"; assigns its lifecycle hooks
on the p5 instance (hook bodies abstracted as opaque tags). -/
def isometricProjectionSketch : Sketch := fun p =>
  { p with
    setup := some "isometricProjection.setup",
    draw := some "isometricProjection.draw",
    mousePressed := some "isometricProjection.mousePressed",
    keyPressed := some "isometricProjection.keyPressed",
    windowResized := some "isometricProjection.windowResized" }

/-- Sketch function registered under key "circle-inversion"; assigns its lifecycle hooks
on the p5 instance (hook bodies abstracted as opaque tags). -/
def circleInversionSketch : Sketch := fun p =>
  { p with
    setup := some "circleInversion.setup",
    draw := some "circleInversion.draw",
    mousePressed := some "circleInversion.mousePressed",
    keyPressed := some "circleInversion.keyPressed",
    windowResized := some "circleInversion.windowResized" }

/-- Sketch function registered under key "hyperbolic-geometry"; assigns its lifecycle hooks
on the p5 instance (hook bodies abstracted as opaque tags). -/
def hyperbolicGeometrySketch : Sketch := fun p =>
  { p with
    setup := some "hyperbolicGeometry.setup",
    draw := some "hyperbolicGeometry.draw",
    keyPressed := some "hyperbolicGeometry.keyPressed",
    windowResized := some "hyperbolicGeometry.windowResized" }

/-- Sketch function registered under key "suprematism"; assigns its lifecycle hooks
on the p5 instance (hook bodies abstracted as opaque tags). -/
def suprematismSketch : Sketch := fun p =>
  { p with
    setup := some "suprematism.setup",
    draw := some "suprematism.draw",
    mousePressed := some "suprematism.mousePressed",
    keyPressed := some "suprematism.keyPressed",
    windowResized := some "suprematism.windowResized" }

/-- Sketch function registered under key "penrose-tiling"; assigns its lifecycle hooks
on the p5 instance (hook bodies abstracted as opaque tags). -/
def penroseTilingSketch : Sketch := fun p =>
  { p with
    setup := some "penroseTiling.setup",
    draw := some "penroseTiling.draw",
    mousePressed := some "penroseTiling.mousePressed",
    keyPressed := some "penroseTiling.keyPressed",
    windowResized := some "penroseTiling.windowResized" }

/-- Sketch function registered under key "wave-function-collapse"; assigns its lifecycle hooks
on the p5 instance (hook bodies abstracted as opaque tags). -/
def waveFunctionCollapseSketch : Sketch := fun p =>
  { p with
    setup := some "waveFunctionCollapse.setup",
    draw := some "waveFunctionCollapse.draw",
    mousePressed := some "waveFunctionCollapse.mousePressed",
    keyPressed := some "waveFunctionCollapse.keyPressed",
    windowResized := some "waveFunctionCollapse.windowResized" }

/-- Sketch function registered under key "hilbert-curve"; assigns its lifecycle hooks
on the p5 instance (hook bodies abstracted as opaque tags). -/
def hilbertCurveSketch : Sketch := fun p =>
  { p with
    setup := some "hilbertCurve.setup",
    draw := some "hilbertCurve.draw",
    mousePressed := some "hilbertCurve.mousePressed",
    keyPressed := some "hilbertCurve.keyPressed",
    windowResized := some "hilbertCurve.windowResized" }

/-- Sketch function registered under key "chaos-game"; assigns its lifecycle hooks
on the p5 instance (hook bodies abstracted as opaque tags). -/
def chaosGameSketch : Sketch := fun p =>
  { p with
    setup := some "chaosGame.setup",
    draw := some "chaosGame.draw",
    mousePressed := some "chaosGame.mousePressed",
    keyPressed := some "chaosGame.keyPressed",
    windowResized := some "chaosGame.windowResized" }

/-- Sketch function registered under key "pixel-sorting"; assigns its lifecycle hooks
on the p5 instance (hook bodies abstracted as opaque tags). -/
def pixelSortingSketch : Sketch := fun p =>
  { p with
    setup := some "pixelSorting.setup",
    draw := some "pixelSorting.draw",
    mousePressed := some "pixelSorting.mousePressed",
    keyPressed := some "pixelSorting.keyPressed",
    windowResized := some "pixelSorting.windowResized" }

/-- Sketch function registered under key "dithering"; assigns its lifecycle hooks
on the p5 instance (hook bodies abstracted as opaque tags). -/
def ditheringSketch : Sketch := fun p =>
  { p with
    setup := some "dithering.setup",
    draw := some "dithering.draw",
    mousePressed := some "dithering.mousePressed",
    keyPressed := some "dithering.keyPressed",
    windowResized := some "dithering.windowResized" }

/-- Sketch function registered under key "spirograph"; assigns its lifecycle hooks
on the p5 instance (hook bodies abstracted as opaque tags). -/
def spirographSketch : Sketch := fun p =>
  { p with
    setup := some "spirograph.setup",
    draw := some "spirograph.draw",
    mousePressed := some "spirograph.mousePressed",
    keyPressed := some "spirograph.keyPressed",
    windowResized := some "spirograph.windowResized" }

/-- Sketch function registered under key "maze-generation"; assigns its lifecycle hooks
on the p5 instance (hook bodies abstracted as opaque tags). -/
def mazeGenerationSketch : Sketch := fun p =>
  { p with
    setup := some "mazeGeneration.setup",
    draw := some "mazeGeneration.draw",
    mousePressed := some "mazeGeneration.mousePressed",
    keyPressed := some "mazeGeneration.keyPressed",
    windowResized := some "mazeGeneration.windowResized" }

/-- Sketch function registered under key "voronoi-stippling"; assigns its lifecycle hooks
on the p5 instance (hook bodies abstracted as opaque tags). -/
def voronoiStipplingSketch : Sketch := fun p =>
  { p with
    setup := some "voronoiStippling.setup",
    draw := some "voronoiStippling.draw",
    mousePressed := some "voronoiStippling.mousePressed",
    keyPressed := some "voronoiStippling.keyPressed",
    windowResized := some "voronoiStippling.windowResized" }

/-- Sketch function registered under key "celtic-knots"; assigns its lifecycle hooks
on the p5 instance (hook bodies abstracted as opaque tags). -/
def celticKnotsSketch : Sketch := fun p =>
  { p with
    setup := some "celticKnots.setup",
    draw := some "celticKnots.draw",
    mousePressed := some "celticKnots.mousePressed",
    keyPressed := some "celticKnots.keyPressed",
    windowResized := some "celticKnots.windowResized" }

/-- Sketch function registered under key "metaballs"; assigns its lifecycle hooks
on the p5 instance (hook bodies abstracted as opaque tags). -/
def metaballsSketch : Sketch := fun p =>
  { p with
    setup := some "metaballs.setup",
    draw := some "metaballs.draw",
    mousePressed := some "metaballs.mousePressed",
    keyPressed := some "metaballs.keyPressed",
    windowResized := some "metaballs.windowResized" }

/-- The sketch registry `sketches` (src/src/sketches/index.ts), as an association
list in source order, modelling the object literal mapping ids to sketch functions. -/
def sketches : List (String × Sketch) := [
  ("flow-fields", flowFieldsSketch),
  ("physarum", physarumSketch),
  ("reaction-diffusion", reactionDiffusionSketch),
  ("strange-attractors", strangeAttractorsSketch),
  ("recursive-subdivision", recursiveSubdivisionSketch),
  ("circle-packing", circlePackingSketch),
  ("kinetic-typography", kineticTypographySketch),
  ("audio-reactive", audioReactiveSketch),
  ("shader-art", shaderArtSketch),
  ("vector-morphing", vectorMorphingSketch),
  ("constellation", constellationSketch),
  ("voronoi", voronoiSketch),
  ("wireframe-terrain", wireframeTerrainSketch),
  ("magnetic-grid", magneticGridSketch),
  ("liquid-blobs", liquidBlobsSketch),
  ("ascii-rain", asciiRainSketch),
  ("cursor-trail", cursorTrailSketch),
  ("parallax-particles", parallaxParticlesSketch),
  ("geometric-wave", geometricWaveSketch),
  ("glitch-effect", glitchEffectSketch),
  ("superformula", superformulaSketch),
  ("fourier-series", fourierSeriesSketch),
  ("phyllotaxis", phyllotaxisSketch),
  ("de-jong-attractor", deJongAttractorSketch),
  ("maurer-rose", maurerRoseSketch),
  ("voronoi-delaunay", voronoiDelaunaySketch),
  ("complex-domain-coloring", complexDomainColoringSketch),
  ("chladni-patterns", chladniPatternsSketch),
  ("apollonian-gasket", apollonianGasketSketch),
  ("marching-squares", marchingSquaresSketch),
  ("levy-flight", levyFlightSketch),
  ("gravitational-attractor", gravitationalAttractorSketch),
  ("double-pendulum", doublePendulumSketch),
  ("particle-painting", particlePaintingSketch),
  ("autonomous-agents", autonomousAgentsSketch),
  ("flocking", flockingSketch),
  ("cellular-automata", cellularAutomataSketch),
  ("fractal-tree", fractalTreeSketch),
  ("genetic-algorithm", geneticAlgorithmSketch),
  ("neural-creatures", neuralCreaturesSketch),
  ("truchet-tiles", truchetTilesSketch),
  ("islamic-geometry", islamicGeometrySketch),
  ("quadtree-subdivision", quadtreeSubdivisionSketch),
  ("moire-patterns", moirePatternsSketch),
  ("l-system", lSystemSketch),
  ("isometric-projection", isometricProjectionSketch),
  ("circle-inversion", circleInversionSketch),
  ("hyperbolic-geometry", hyperbolicGeometrySketch),
  ("suprematism", suprematismSketch),
  ("penrose-tiling", penroseTilingSketch),
  ("wave-function-collapse", waveFunctionCollapseSketch),
  ("hilbert-curve", hilbertCurveSketch),
  ("chaos-game", chaosGameSketch),
  ("pixel-sorting", pixelSortingSketch),
  ("dithering", ditheringSketch),
  ("spirograph", spirographSketch),
  ("maze-generation", mazeGenerationSketch),
  ("voronoi-stippling", voronoiStipplingSketch),
  ("celtic-knots", celticKnotsSketch),
  ("metaballs", metaballsSketch)
]

/-- The own property names of `Object.prototype`, which every object literal
inherits: a JavaScript property access `obj[id]` on a plain record falls back
to these after the own properties, so it yields a defined value (a built-in
function, or `Object.prototype` itself for `__proto__`) rather than
`undefined` at these keys. -/
def objectPrototypeKeys : List String :=
  ["constructor", "hasOwnProperty", "isPrototypeOf", "propertyIsEnumerable",
   "toLocaleString", "toString", "valueOf", "__defineGetter__",
   "__defineSetter__", "__lookupGetter__", "__lookupSetter__", "__proto__"]

/-- A defined JavaScript value that the property access `sketches[id]` can
yield at runtime: a sketch function stored as an own property of the record,
or a member inherited from `Object.prototype`, identified by its name. -/
inductive JSProperty where
  | own (fn : Sketch)
  | inherited (name : String)

/-- `getSketch` (src/src/sketches/index.ts): the record access `sketches[id]`.
JavaScript property access consults the own properties first and then the
prototype chain, so an unregistered id still yields a defined value when it
names an `Object.prototype` member, and `undefined` only otherwise. -/
def getSketch (id : String) : Option JSProperty :=
  match sketches.lookup id with
  | some fn => some (JSProperty.own fn)
  | none =>
    if id ∈ objectPrototypeKeys then some (JSProperty.inherited id) else none

/-! ### Generic association-list and find lemmas for the lookup wiring -/

theorem lookup_mem {α β : Type} [BEq α] [LawfulBEq α]
    (l : List (α × β)) (a : α) (b : β) (h : l.lookup a = some b) : (a, b) ∈ l := by
  induction l with
  | nil => simp [List.lookup] at h
  | cons kv t ih =>
    rcases kv with ⟨k, v⟩
    rw [List.lookup_cons] at h
    by_cases hbeq : (a == k) = true
    · rw [hbeq] at h
      simp only [] at h
      obtain rfl : v = b := by injection h
      obtain rfl : a = k := eq_of_beq hbeq
      exact List.mem_cons_self _ _
    · rw [Bool.not_eq_true] at hbeq
      rw [hbeq] at h
      exact List.mem_cons_of_mem _ (ih h)

theorem lookup_eq_none {α β : Type} [BEq α] [LawfulBEq α]
    (l : List (α × β)) (a : α) : l.lookup a = none ↔ a ∉ l.map Prod.fst := by
  induction l with
  | nil => simp [List.lookup]
  | cons kv t ih =>
    rcases kv with ⟨k, v⟩
    rw [List.lookup_cons]
    by_cases hbeq : (a == k) = true
    · obtain rfl : a = k := eq_of_beq hbeq
      rw [hbeq]
      simp
    · have hak : a ≠ k := fun hh => hbeq (by rw [hh]; exact beq_self_eq_true k)
      rw [Bool.not_eq_true] at hbeq
      rw [hbeq]
      simp [ih, hak]

theorem find?_first {α : Type} (P : α → Bool) (l : List α) (a : α)
    (h : l.find? P = some a) :
    ∃ l₁ l₂, l = l₁ ++ a :: l₂ ∧ ∀ x ∈ l₁, P x = false := by
  induction l with
  | nil => simp at h
  | cons x t ih =>
    rw [List.find?_cons] at h
    by_cases hx : P x = true
    · rw [hx] at h
      simp only [] at h
      obtain rfl : x = a := by injection h
      exact ⟨[], t, rfl, by simp⟩
    · rw [Bool.not_eq_true] at hx
      rw [hx] at h
      obtain ⟨l₁, l₂, rfl, hall⟩ := ih h
      refine ⟨x :: l₁, l₂, rfl, ?_⟩
      intro y hy
      rcases List.mem_cons.mp hy with rfl | hy'
      · exact hx
      · exact hall y hy'

/-! ### Claim C1 -/

/-- C1: every entry of the artworks catalog identifies exactly one registered
sketch: the `id` values of the elements of `artworks` are pairwise distinct,
and for every element `a` of `artworks`, `getSketch a.id` is defined. -/
theorem artworks_ids_distinct_and_registered :
    (artworks.map fun a => a.id).Nodup ∧
    (artworks.all fun a => (getSketch a.id).isSome) = true := by
  constructor
  · decide
  · rfl

/-! ### Claim C3 -/

/-- Counterexample to C3 as stated: "toString" is not one of the registered
identifiers, yet the property access `sketches["toString"]` finds the
inherited `Object.prototype.toString`, so `getSketch "toString"` is defined
rather than `undefined`. -/
theorem getSketch_toString_not_undefined :
    ("toString" ∉ sketches.map Prod.fst) ∧
    (getSketch "toString").isSome = true := by
  constructor
  · decide
  · rfl

/-- C3 amended: for every registered id, `getSketch id` returns exactly the
sketch function stored under that key in the `sketches` record; for an
unregistered id the plain property access returns `undefined` unless the id
names an inherited `Object.prototype` member, in which case that inherited
member (never a registered sketch) is returned.  The wiring between catalog,
registry and pages is this plain property lookup. -/
theorem getSketch_is_plain_lookup (id : String) :
    (∀ fn, getSketch id = some (JSProperty.own fn) → (id, fn) ∈ sketches) ∧
    (∀ fn, sketches.lookup id = some fn →
      getSketch id = some (JSProperty.own fn)) ∧
    (getSketch id = none ↔
      id ∉ sketches.map Prod.fst ∧ id ∉ objectPrototypeKeys) ∧
    (∀ name, getSketch id = some (JSProperty.inherited name) →
      id ∉ sketches.map Prod.fst ∧ id ∈ objectPrototypeKeys ∧ name = id) := by
  unfold getSketch
  cases hl : sketches.lookup id with
  | some fn =>
    have hmem : id ∈ sketches.map Prod.fst := by
      by_contra hno
      rw [← lookup_eq_none sketches id] at hno
      rw [hl] at hno
      exact Option.noConfusion hno
    refine ⟨?_, ?_, ?_, ?_⟩
    · intro fn' h
      obtain rfl : fn = fn' := by
        have := Option.some.inj h
        exact JSProperty.own.inj this
      exact lookup_mem sketches id fn hl
    · intro fn' h
      rw [Option.some.inj h]
    · constructor
      · intro h
        exact Option.noConfusion h
      · intro ⟨h1, _⟩
        exact absurd hmem h1
    · intro name h
      exact absurd (Option.some.inj h) (by intro hh; exact JSProperty.noConfusion hh)
  | none =>
    have hno : id ∉ sketches.map Prod.fst := (lookup_eq_none sketches id).mp hl
    by_cases hp : id ∈ objectPrototypeKeys
    · rw [if_pos hp]
      refine ⟨?_, ?_, ?_, ?_⟩
      · intro fn h
        have := Option.some.inj h
        exact absurd this (by intro hh; exact JSProperty.noConfusion hh)
      · intro fn h
        exact Option.noConfusion h
      · constructor
        · intro h
          exact Option.noConfusion h
        · intro ⟨_, h2⟩
          exact absurd hp h2
      · intro name h
        have := JSProperty.inherited.inj (Option.some.inj h)
        exact ⟨hno, hp, this.symm⟩
    · rw [if_neg hp]
      refine ⟨?_, ?_, ?_, ?_⟩
      · intro fn h
        exact Option.noConfusion h
      · intro fn h
        exact Option.noConfusion h
      · exact ⟨fun _ => ⟨hno, hp⟩, fun _ => rfl⟩
      · intro name h
        exact Option.noConfusion h

/-- Witness for the amended C3 at the concrete registered id "flow-fields". -/
theorem getSketch_is_plain_lookup_witness :
    ("flow-fields", flowFieldsSketch) ∈ sketches :=
  (getSketch_is_plain_lookup "flow-fields").1 flowFieldsSketch rfl

/-! ### Claim C4 -/

/-- C4: `getArtwork id` returns the first element of the static `artworks`
array whose `id` field equals `id` (everything before it fails the test), and
returns `none` exactly when no element matches; every catalog record carries a
difficulty that is one of easy, medium, hard. -/
theorem getArtwork_first_match (id : String) :
    (∀ a, getArtwork id = some a →
      a.id = id ∧ ∃ l₁ l₂, artworks = l₁ ++ a :: l₂ ∧ ∀ b ∈ l₁, b.id ≠ id) ∧
    (getArtwork id = none ↔ ∀ a ∈ artworks, a.id ≠ id) ∧
    (∀ a ∈ artworks,
      a.difficulty = Difficulty.easy ∨ a.difficulty = Difficulty.medium ∨
        a.difficulty = Difficulty.hard) := by
  refine ⟨?_, ?_, ?_⟩
  · intro a h
    have h' : artworks.find? (fun art => art.id == id) = some a := h
    have hP := List.find?_some h'
    simp only [] at hP
    refine ⟨eq_of_beq hP, ?_⟩
    obtain ⟨l₁, l₂, hsplit, hall⟩ := find?_first _ artworks a h'
    refine ⟨l₁, l₂, hsplit, ?_⟩
    intro b hb hbid
    have := hall b hb
    rw [hbid] at this
    simp at this
  · rw [show getArtwork id = artworks.find? (fun art => art.id == id) from rfl]
    rw [List.find?_eq_none]
    constructor
    · intro h a ha hid
      exact h a ha (by rw [hid]; simp)
    · intro h a ha hP
      exact h a ha (eq_of_beq hP)
  · intro a _
    cases hdiff : a.difficulty
    · exact Or.inl rfl
    · exact Or.inr (Or.inl rfl)
    · exact Or.inr (Or.inr rfl)

/-- Witness for C4 at the concrete id "flow-fields": the match is the first
catalog entry. -/
theorem getArtwork_first_match_witness :
    (artworks.get ⟨0, by decide⟩).id = "flow-fields" :=
  ((getArtwork_first_match "flow-fields").1 (artworks.get ⟨0, by decide⟩) rfl).1

/-! ### Claim C5 -/

/-- What the artwork page renders: the Not Found view, or the artwork overlay
with the canvas wrapper mounted on a sketch. -/
inductive PageView where
  | notFound
  | artView (artwork : Artwork) (sk : JSProperty)

/-- The value the page hands to the canvas wrapper as its sketch, if any. -/
def PageView.mountedSketch : PageView → Option JSProperty
  | .notFound => none
  | .artView _ sk => some sk

/-- `ArtPage` (src/unnamed/part_012): looks up `getArtwork id` and
`getSketch id`; if either is missing it renders the Artwork Not Found view,
otherwise it mounts `P5Wrapper` with the sketch. -/
def ArtPage (id : String) : PageView :=
  match getArtwork id, getSketch id with
  | some artwork, some sk => PageView.artView artwork sk
  | _, _ => PageView.notFound

/-- C5: the artwork page mounts the canvas wrapper with `getSketch id` if and
only if both `getArtwork id` and `getSketch id` are defined; when either
lookup fails it renders the Not Found view and mounts no sketch. -/
theorem artPage_mounts_iff (id : String) :
    (ArtPage id = PageView.notFound ↔ getArtwork id = none ∨ getSketch id = none) ∧
    (∀ a sk, ArtPage id = PageView.artView a sk →
      getArtwork id = some a ∧ getSketch id = some sk) ∧
    ((ArtPage id).mountedSketch =
      if (getArtwork id).isSome then getSketch id else none) := by
  unfold ArtPage
  cases ha : getArtwork id <;> cases hs : getSketch id <;>
    simp [PageView.mountedSketch]

/-- Witness for C5 at the concrete id "flow-fields". -/
theorem artPage_mounts_iff_witness :
    (ArtPage "flow-fields").mountedSketch =
      (if (getArtwork "flow-fields").isSome then getSketch "flow-fields" else none) :=
  (artPage_mounts_iff "flow-fields").2.2

/-! ### Claim C6: the canvas-mounting wrapper (src/src/components/P5Wrapper.tsx) -/

/-- Events acting on the wrapper's refs: the effect body running `initP5`
(with the container ref either attached or not), and the effect cleanup
(run on unmount or when the `sketch` prop changes). -/
inductive WrapperEvent where
  | effectInit (containerExists : Bool)
  | cleanup
deriving DecidableEq, Repr

/-- The wrapper's mutable state: `p5InstanceRef.current` (an instance identity
or null), a supply of fresh instance identities, and the set of constructed
p5 instances whose `remove()` has not been called. -/
structure WrapperState where
  p5Instance : Option Nat
  nextId : Nat
  live : List Nat
deriving DecidableEq, Repr

/-- Initial wrapper state: `p5InstanceRef.current = null`, nothing live. -/
def initialWrapperState : WrapperState :=
  { p5Instance := none, nextId := 0, live := [] }

/-- One wrapper event (src/src/components/P5Wrapper.tsx, lines 17-37):
`initP5` constructs a new p5 instance only when `containerRef.current` exists
and `p5InstanceRef.current` is null, storing it in the ref; the cleanup calls
`remove()` on the stored instance and resets the ref to null. -/
def wrapperStep (s : WrapperState) (e : WrapperEvent) : WrapperState :=
  match e with
  | .effectInit containerExists =>
    if containerExists && s.p5Instance.isNone then
      { p5Instance := some s.nextId, nextId := s.nextId + 1,
        live := s.live ++ [s.nextId] }
    else s
  | .cleanup =>
    match s.p5Instance with
    | some i => { p5Instance := none, nextId := s.nextId, live := s.live.erase i }
    | none => s

/-- Running a sequence of wrapper events from the initial state. -/
def wrapperRun (es : List WrapperEvent) : WrapperState :=
  es.foldl wrapperStep initialWrapperState

/-- The wrapper invariant: the live instances are exactly the one stored in
`p5InstanceRef.current`, if any. -/
def WrapperInv (s : WrapperState) : Prop :=
  s.live = s.p5Instance.toList

theorem wrapperStep_inv (s : WrapperState) (e : WrapperEvent)
    (h : WrapperInv s) : WrapperInv (wrapperStep s e) := by
  cases e with
  | effectInit c =>
    simp only [wrapperStep]
    by_cases hc : (c && s.p5Instance.isNone) = true
    · rw [if_pos hc]
      have hnone : s.p5Instance = none := by
        rcases (Bool.and_eq_true _ _).mp hc with ⟨_, h2⟩
        exact Option.isNone_iff_eq_none.mp h2
      unfold WrapperInv at h ⊢
      rw [h, hnone]
      rfl
    · rw [if_neg hc]
      exact h
  | cleanup =>
    simp only [wrapperStep]
    unfold WrapperInv at h ⊢
    cases hi : s.p5Instance with
    | none => simpa using h
    | some i =>
      rw [hi] at h
      simp only [h, hi, Option.toList]
      simp [List.erase_cons]

theorem wrapperRun_inv (es : List WrapperEvent) : WrapperInv (wrapperRun es) := by
  suffices hgen : ∀ s, WrapperInv s → WrapperInv (es.foldl wrapperStep s) from
    hgen initialWrapperState rfl
  induction es with
  | nil => intro s h; exact h
  | cons e t ih =>
    intro s h
    exact ih (wrapperStep s e) (wrapperStep_inv s e h)

/-- C6: the wrapper never has more than one live p5 instance, whatever the
sequence of effect runs and cleanups; a new instance is constructed only when
the container exists and no instance is stored; the cleanup removes the
stored instance (it leaves the live set without it) and resets the stored
reference to null. -/
theorem wrapper_at_most_one_live :
    (∀ es : List WrapperEvent, (wrapperRun es).live.length ≤ 1) ∧
    (∀ s c, wrapperStep s (WrapperEvent.effectInit c) ≠ s →
      c = true ∧ s.p5Instance = none) ∧
    (∀ s, (wrapperStep s WrapperEvent.cleanup).p5Instance = none) ∧
    (∀ s i, s.p5Instance = some i →
      (wrapperStep s WrapperEvent.cleanup).live = s.live.erase i) := by
  refine ⟨?_, ?_, ?_, ?_⟩
  · intro es
    have h := wrapperRun_inv es
    unfold WrapperInv at h
    rw [h]
    cases (wrapperRun es).p5Instance <;> simp [Option.toList]
  · intro s c hne
    simp only [wrapperStep] at hne
    by_cases hc : (c && s.p5Instance.isNone) = true
    · rcases (Bool.and_eq_true _ _).mp hc with ⟨h1, h2⟩
      exact ⟨h1, Option.isNone_iff_eq_none.mp h2⟩
    · rw [if_neg hc] at hne
      exact absurd rfl hne
  · intro s
    simp only [wrapperStep]
    cases hi : s.p5Instance with
    | none => simp [hi]
    | some i => simp
  · intro s i hi
    simp only [wrapperStep]
    rw [hi]

/-- Witness for C6: a concrete event trace (mount, unmount, re-mount) keeps at
most one live instance, and a cleanup on a concrete state with a stored
instance nulls the reference. -/
theorem wrapper_at_most_one_live_witness :
    (wrapperRun [WrapperEvent.effectInit true, WrapperEvent.cleanup,
      WrapperEvent.effectInit true]).live.length ≤ 1 ∧
    (wrapperStep { p5Instance := some 0, nextId := 1, live := [0] }
      WrapperEvent.cleanup).p5Instance = none :=
  ⟨wrapper_at_most_one_live.1 _, wrapper_at_most_one_live.2.2.1 _⟩

/-! ### Claim C7: the L-system sketch (src/src/sketches/lSystem.ts) -/

/-- The `LSystemRule` interface of the L-system sketch.  Its first string
field after `name` holds the start string of the rewriting system; its
TypeScript name is a Lean keyword, so it is called `start` here. -/
structure LSystemRule where
  name : String
  start : String
  rules : List (Char × String)
  angle : Nat
  startAngle : Nat
  iterations : Nat
  scale : Nat
deriving DecidableEq, Repr

/-- The `systems` array of the L-system sketch (src/src/sketches/lSystem.ts,
lines 26-98), in source order. -/
def systems : List LSystemRule := [
  { name := "Dragon Curve", start := "FX",
    rules := [('X', "X+YF+"), ('Y', "-FX-Y")],
    angle := 90, startAngle := 0, iterations := 12, scale := 5 },
  { name := "Koch Snowflake", start := "F++F++F",
    rules := [('F', "F-F++F-F")],
    angle := 60, startAngle := 0, iterations := 4, scale := 3 },
  { name := "Sierpinski Triangle", start := "F-G-G",
    rules := [('F', "F-G+F+G-F"), ('G', "GG")],
    angle := 120, startAngle := 0, iterations := 6, scale := 4 },
  { name := "Hilbert Curve", start := "A",
    rules := [('A', "-BF+AFA+FB-"), ('B', "+AF-BFB-FA+")],
    angle := 90, startAngle := 0, iterations := 6, scale := 8 },
  { name := "Gosper Curve", start := "A",
    rules := [('A', "A-B--B+A++AA+B-"), ('B', "+A-BB--B-A++A+B")],
    angle := 60, startAngle := 0, iterations := 4, scale := 6 },
  { name := "Peano Curve", start := "X",
    rules := [('X', "XFYFX+F+YFXFY-F-XFYFX"), ('Y', "YFXFY-F-XFYFX+F+YFXFY")],
    angle := 90, startAngle := 0, iterations := 3, scale := 8 }
]

/-- One pass of the inner rewrite loop of `generateSentence` (lines 109-119):
for each character in order, the rule right-hand side is appended when the
JavaScript truthiness test `if (system.rules[char])` passes (rule present
and nonempty), the character itself otherwise. -/
def lsStep (rules : List (Char × String)) (sentence : String) : String :=
  sentence.foldl
    (fun acc c =>
      match rules.lookup c with
      | some r => if r.isEmpty then acc.push c else acc ++ r
      | none => acc.push c)
    ""

/-- `generateSentence` (src/src/sketches/lSystem.ts, lines 105-127): starts
from the current system's start string and runs the rewrite pass
`currentIteration` times.  (The trailing segment-length computation of the
source function only sets the drawing scale, not the sentence.) -/
def generateSentence (sys : LSystemRule) (currentIteration : Nat) : String :=
  (lsStep sys.rules)^[currentIteration] sys.start

/-- One parallel rewriting pass as the specification words it: every
character that has a production rule in the rules record is replaced by that
rule's right-hand side, and every character without a rule is copied
unchanged, preserving left-to-right order. -/
def specRewritePass (rules : List (Char × String)) (sentence : String) : String :=
  sentence.foldl
    (fun acc c =>
      match rules.lookup c with
      | some r => acc ++ r
      | none => acc.push c)
    ""

theorem foldl_congr_mem {α β : Type} (f g : β → α → β) (l : List α)
    (h : ∀ acc a, a ∈ l → f acc a = g acc a) :
    ∀ acc, l.foldl f acc = l.foldl g acc := by
  induction l with
  | nil => intro acc; rfl
  | cons x t ih =>
    intro acc
    rw [List.foldl_cons, List.foldl_cons, h acc x (List.mem_cons_self x t)]
    exact ih (fun acc a ha => h acc a (List.mem_cons_of_mem x ha)) _

theorem lsStep_eq_spec (rules : List (Char × String))
    (hne : ∀ pr ∈ rules, pr.2.isEmpty = false) (s : String) :
    lsStep rules s = specRewritePass rules s := by
  unfold lsStep specRewritePass
  rw [String.foldl_eq, String.foldl_eq]
  apply foldl_congr_mem
  intro acc c _
  cases hl : rules.lookup c with
  | none => simp [hl]
  | some r =>
    have hr : r.isEmpty = false := hne (c, r) (lookup_mem rules c r hl)
    simp [hl, hr]

/-- C7: for every system in the `systems` array and every iteration count,
`generateSentence` computes exactly `currentIteration` parallel rewriting
passes from the system's start string, each pass replacing every character
that has a production rule by that rule's right-hand side and copying every
other character, in left-to-right order. -/
theorem generateSentence_is_iterated_rewrite (sys : LSystemRule)
    (hsys : sys ∈ systems) (n : Nat) :
    generateSentence sys n = (specRewritePass sys.rules)^[n] sys.start := by
  have hne : ∀ pr ∈ sys.rules, pr.2.isEmpty = false := by
    fin_cases hsys <;> decide
  unfold generateSentence
  induction n with
  | zero => rfl
  | succ k ih =>
    rw [Function.iterate_succ_apply', Function.iterate_succ_apply', ih]
    exact lsStep_eq_spec sys.rules hne _

/-- Witness for C7: the Dragon Curve system at two iterations. -/
theorem generateSentence_is_iterated_rewrite_witness :
    generateSentence (systems.get ⟨0, by decide⟩) 2 =
      (specRewritePass (systems.get ⟨0, by decide⟩).rules)^[2]
        (systems.get ⟨0, by decide⟩).start :=
  generateSentence_is_iterated_rewrite _ (by decide) 2

/-! ### Claim C9: the cellular-automata step (src/src/sketches/cellularAutomata.ts) -/

/-- `generateRuleSet` (lines 40-45): `ruleSet[i] = (ruleNumber >> i) & 1` for
`i` in `0..7`. -/
def generateRuleSet (ruleNumber : Nat) : List Nat :=
  (List.range 8).map fun i => (ruleNumber >>> i) &&& 1

/-- `calculateNextGeneration` (lines 47-60): every cell index `i` maps to
`ruleSet[left*4 + center*2 + right]`, the neighbours taken cyclically
(`numCells` is `cells.length`; the source index `(i - 1 + numCells)` is
written `i + numCells - 1`, equal over the integers since `i ≥ 0`).  Array
reads are modelled in `Option`, `none` standing for a JavaScript undefined
element read. -/
def calculateNextGeneration (ruleSet cells : List Nat) : Option (List Nat) :=
  (List.range cells.length).mapM fun i => do
    let left ← cells.get? ((i + cells.length - 1) % cells.length)
    let center ← cells.get? i
    let right ← cells.get? ((i + 1) % cells.length)
    ruleSet.get? (left * 4 + center * 2 + right)

/-- The value `calculateNextGeneration` writes at index `i` when every read
is in range, as a total function. -/
def caLocalRule (ruleSet cells : List Nat) (i : Nat) : Nat :=
  ruleSet.getD
    (cells.getD ((i + cells.length - 1) % cells.length) 0 * 4 +
      cells.getD i 0 * 2 +
      cells.getD ((i + 1) % cells.length) 0) 0

theorem mapM_eq_map_of_forall_some {α β : Type} (f : α → Option β) (g : α → β)
    (l : List α) (h : ∀ a ∈ l, f a = some (g a)) : l.mapM f = some (l.map g) := by
  induction l with
  | nil => rfl
  | cons x t ih =>
    rw [List.mapM_cons, h x (List.mem_cons_self x t),
      ih (fun a ha => h a (List.mem_cons_of_mem x ha))]
    rfl

theorem getD_eq_of_get? {α : Type} (l : List α) (n : Nat) (d v : α)
    (h : l.get? n = some v) : l.getD n d = v := by
  rw [List.getD_eq_get?, h]
  rfl

theorem get?_eq_some_getD {α : Type} (l : List α) (n : Nat) (d : α)
    (h : n < l.length) : l.get? n = some (l.getD n d) := by
  rw [List.get?_eq_get h, getD_eq_of_get? l n d _ (List.get?_eq_get h)]

/-- C9: `generateRuleSet ruleNumber` lists bit `i` of the rule number at
index `i` for `i < 8`; `calculateNextGeneration` maps every index `i` of a
binary cells array to `ruleSet[left*4 + center*2 + right]` with cyclic
neighbours, hence it preserves the array length and keeps every entry in
`{0, 1}`. -/
theorem ca_step_spec (ruleNumber : Nat) (cells : List Nat)
    (hrule : ruleNumber < 256) (hcells : ∀ c ∈ cells, c = 0 ∨ c = 1) :
    (∀ i, i < 8 →
      (generateRuleSet ruleNumber).get? i = some (ruleNumber / 2 ^ i % 2)) ∧
    calculateNextGeneration (generateRuleSet ruleNumber) cells =
      some ((List.range cells.length).map
        (caLocalRule (generateRuleSet ruleNumber) cells)) ∧
    ((List.range cells.length).map
      (caLocalRule (generateRuleSet ruleNumber) cells)).length = cells.length ∧
    (∀ c ∈ (List.range cells.length).map
      (caLocalRule (generateRuleSet ruleNumber) cells), c = 0 ∨ c = 1) := by
  have hruleElems : ∀ v ∈ generateRuleSet ruleNumber, v = 0 ∨ v = 1 := by
    intro v hv
    simp only [generateRuleSet, List.mem_map, List.mem_range] at hv
    obtain ⟨i, _, rfl⟩ := hv
    rw [Nat.and_one_is_mod]
    omega
  have hgetD01 : ∀ j, (generateRuleSet ruleNumber).getD j 0 = 0 ∨
      (generateRuleSet ruleNumber).getD j 0 = 1 := by
    intro j
    rw [List.getD_eq_get?]
    cases h : (generateRuleSet ruleNumber).get? j with
    | none => exact Or.inl rfl
    | some v => simpa using hruleElems v (List.get?_mem h)
  have hlen8 : (generateRuleSet ruleNumber).length = 8 := by
    simp [generateRuleSet]
  have hcellD : ∀ j, j < cells.length →
      cells.getD j 0 = 0 ∨ cells.getD j 0 = 1 := by
    intro j hj
    rw [getD_eq_of_get? cells j 0 _ (List.get?_eq_get hj)]
    exact hcells _ (List.get_mem cells j hj)
  refine ⟨?_, ?_, ?_, ?_⟩
  · intro i hi
    unfold generateRuleSet
    rw [List.get?_map, List.get?_range hi]
    simp [Nat.shiftRight_eq_div_pow, Nat.and_one_is_mod]
  · unfold calculateNextGeneration
    apply mapM_eq_map_of_forall_some
    intro i hi
    rw [List.mem_range] at hi
    have hn : 0 < cells.length := lt_of_le_of_lt (Nat.zero_le i) hi
    have hL : (i + cells.length - 1) % cells.length < cells.length :=
      Nat.mod_lt _ hn
    have hR : (i + 1) % cells.length < cells.length := Nat.mod_lt _ hn
    have hidx : cells.getD ((i + cells.length - 1) % cells.length) 0 * 4 +
        cells.getD i 0 * 2 + cells.getD ((i + 1) % cells.length) 0 < 8 := by
      rcases hcellD _ hL with h1 | h1 <;> rcases hcellD _ hi with h2 | h2 <;>
        rcases hcellD _ hR with h3 | h3 <;> rw [h1, h2, h3] <;> decide
    rw [get?_eq_some_getD cells _ 0 hL, get?_eq_some_getD cells _ 0 hi,
      get?_eq_some_getD cells _ 0 hR]
    show (generateRuleSet ruleNumber).get? _ = _
    exact get?_eq_some_getD _ _ 0 (by rw [hlen8]; exact hidx)
  · simp
  · intro c hc
    simp only [List.mem_map, List.mem_range] at hc
    obtain ⟨i, _, rfl⟩ := hc
    exact hgetD01 _

/-- Witness for C9: rule 30 on the binary array `[0, 1, 0]`. -/
theorem ca_step_spec_witness :
    calculateNextGeneration (generateRuleSet 30) [0, 1, 0] =
      some ((List.range (([0, 1, 0] : List Nat)).length).map
        (caLocalRule (generateRuleSet 30) [0, 1, 0])) :=
  (ca_step_spec 30 [0, 1, 0] (by decide) (by decide)).2.1

/-! ### Claim C2: per-frame state of the cellular-automata draw hook -/

/-- The sketch-local mutable state read and written by the draw hook of the
cellular-automata sketch (src/src/sketches/cellularAutomata.ts): the closure
variables `cells`, `ruleSet`, `currentRow`, `cellSize` and the canvas height.
(The colour state and the `rule` number only affect pixel colours and the
asynchronous reset, not the drawn generations.) -/
structure CAState where
  cells : List Nat
  ruleSet : List Nat
  currentRow : Nat
  cellSize : Nat
  height : Nat
deriving DecidableEq, Repr

/-- The `rowsPerFrame` loop of the draw hook (lines 100-118), with `fuel`
iterations left: while `currentRow * cellSize < height` it renders the
current cells at row `currentRow` (recorded in the output trace), advances
the generation, and increments `currentRow`; otherwise it breaks (the reset
is scheduled asynchronously and `noLoop` only stops the host loop). -/
def caDrawGo : Nat → CAState → List (Nat × List Nat) →
    Option (CAState × List (Nat × List Nat))
  | 0, s, out => some (s, out)
  | fuel + 1, s, out =>
    if s.currentRow * s.cellSize < s.height then
      match calculateNextGeneration s.ruleSet s.cells with
      | some nextCells =>
        caDrawGo fuel
          { s with cells := nextCells, currentRow := s.currentRow + 1 }
          (out ++ [(s.currentRow, s.cells)])
      | none => none
    else
      some (s, out)

/-- One invocation of the cellular-automata draw hook: the loop runs with
`rowsPerFrame = 3`; returns the state left for the next invocation and the
trace of (row, cells) renderings this call produced. -/
def caDraw (s : CAState) : Option (CAState × List (Nat × List Nat)) :=
  caDrawGo 3 s []

/-- A concrete reachable state of the cellular-automata sketch: rule 30,
five cells with a single live centre cell, top row, `cellSize = 1` on a
10-pixel-high canvas. -/
def caState0 : CAState :=
  { cells := [0, 0, 1, 0, 0], ruleSet := generateRuleSet 30, currentRow := 0,
    cellSize := 1, height := 10 }

/-- The state `caState0` draw leaves behind: three generations advanced. -/
def caState3 : CAState :=
  { cells := [0, 0, 1, 1, 1], ruleSet := generateRuleSet 30, currentRow := 3,
    cellSize := 1, height := 10 }

/-- The render trace of the first draw call from `caState0`. -/
def caOut0 : List (Nat × List Nat) :=
  [(0, [0, 0, 1, 0, 0]), (1, [0, 1, 1, 1, 0]), (2, [1, 1, 0, 0, 1])]

theorem caDrawGo_advance (fuel : Nat) :
    ∀ (s : CAState) (out : List (Nat × List Nat)) s' out',
      caDrawGo fuel s out = some (s', out') →
      s'.currentRow + out.length = s.currentRow + out'.length ∧
      out.length ≤ out'.length ∧ out'.length - out.length ≤ fuel := by
  induction fuel with
  | zero =>
    intro s out s' out' h
    simp only [caDrawGo, Option.some.injEq, Prod.mk.injEq] at h
    obtain ⟨rfl, rfl⟩ := h
    exact ⟨rfl, le_refl _, by omega⟩
  | succ k ih =>
    intro s out s' out' h
    simp only [caDrawGo] at h
    by_cases hrow : s.currentRow * s.cellSize < s.height
    · rw [if_pos hrow] at h
      cases hng : calculateNextGeneration s.ruleSet s.cells with
      | none => rw [hng] at h; simp at h
      | some nextCells =>
        rw [hng] at h
        obtain ⟨h1, h2, h3⟩ := ih _ _ _ _ h
        have hcr : ({ s with cells := nextCells, currentRow := s.currentRow + 1 } : CAState).currentRow = s.currentRow + 1 := rfl
        rw [hcr] at h1
        simp only [List.length_append, List.length_cons, List.length_nil]
          at h1 h2 h3
        refine ⟨by omega, by omega, by omega⟩
    · rw [if_neg hrow] at h
      simp only [Option.some.injEq, Prod.mk.injEq] at h
      obtain ⟨rfl, rfl⟩ := h
      exact ⟨rfl, le_refl _, by omega⟩

/-- Counterexample to C2 as stated: from the reachable state `caState0`, one
invocation of the cellular-automata draw hook does leave mutated sketch state
behind, and the next invocation (same external inputs) renders a different
output, so a render call's observable behaviour is not determined by that
call's inputs alone. -/
theorem ca_draw_not_frame_local :
    ¬ ((caDraw caState0).map Prod.fst = some caState0 ∧
      ((caDraw caState0).bind fun res => caDraw res.1).map Prod.snd =
        (caDraw caState0).map Prod.snd) := by
  decide

/-- C2 amended: a sketch's draw hook owns persistent local state that it both
reads and updates: every successful cellular-automata draw call renders at
most `rowsPerFrame = 3` rows and advances the persisted `currentRow` by
exactly the number of rows it drew, and concretely the state after a call
differs from the state before it while the following call renders different
rows. -/
theorem ca_draw_reads_and_updates_state :
    (∀ s s' out, caDraw s = some (s', out) →
      s'.currentRow = s.currentRow + out.length ∧ out.length ≤ 3) ∧
    (caDraw caState0).map Prod.fst ≠ some caState0 ∧
    ((caDraw caState0).bind fun res => caDraw res.1).map Prod.snd ≠
      (caDraw caState0).map Prod.snd := by
  refine ⟨?_, by decide, by decide⟩
  intro s s' out h
  obtain ⟨h1, h2, h3⟩ := caDrawGo_advance 3 s [] s' out h
  simp only [List.length_nil] at h1 h3
  omega

/-- Witness for the amended C2 at the concrete state `caState0`. -/
theorem ca_draw_reads_and_updates_state_witness :
    caState3.currentRow = caState0.currentRow + caOut0.length ∧
      caOut0.length ≤ 3 :=
  ca_draw_reads_and_updates_state.1 caState0 caState3 caOut0 (by decide)

/-! ### Claim C8: lifecycle hooks assigned by the registered sketches -/

/-- Counterexample to C8 as stated: the registered sketch function for
"recursive-subdivision" (src/src/sketches/recursiveSubdivision.ts) assigns a
setup hook but no draw hook (it renders once inside setup under `noLoop`),
so not every registered sketch assigns both hooks. -/
theorem recursive_subdivision_assigns_no_draw :
    ("recursive-subdivision", recursiveSubdivisionSketch) ∈ sketches ∧
    (recursiveSubdivisionSketch freshP5).draw = none ∧
    ((recursiveSubdivisionSketch freshP5).setup).isSome = true := by
  refine ⟨?_, rfl, rfl⟩
  simp [sketches]

/-- C8 amended: every sketch function registered in the `sketches` record
assigns a setup hook, and every one except "recursive-subdivision" (which
draws once inside its setup) also assigns a draw hook; input-event handlers
are assigned by some sketches (the L-system sketch assigns mouse, key and
resize handlers) but not by all (the shader-art sketch leaves the mouse and
key slots untouched), so registration does not require them. -/
theorem sketches_assign_hooks :
    (∀ pr ∈ sketches, ∀ p, ((pr.2 p).setup).isSome = true) ∧
    (∀ pr ∈ sketches, pr.1 ≠ "recursive-subdivision" →
      ∀ p, ((pr.2 p).draw).isSome = true) ∧
    (∀ p, (recursiveSubdivisionSketch p).draw = p.draw) ∧
    (∀ p, ((lSystemSketch p).mousePressed).isSome = true ∧
      ((lSystemSketch p).keyPressed).isSome = true ∧
      ((lSystemSketch p).windowResized).isSome = true) ∧
    (∀ p, (shaderArtSketch p).mousePressed = p.mousePressed ∧
      (shaderArtSketch p).keyPressed = p.keyPressed) := by
  refine ⟨?_, ?_, fun p => rfl, fun p => ⟨rfl, rfl, rfl⟩, fun p => ⟨rfl, rfl⟩⟩
  · intro pr h
    fin_cases h <;> exact fun p => rfl
  · intro pr h
    fin_cases h <;> intro hne p <;> first | rfl | exact absurd rfl hne

/-- Witness for the amended C8 at the first registered sketch. -/
theorem sketches_assign_hooks_witness :
    ((flowFieldsSketch freshP5).setup).isSome = true ∧
    ((flowFieldsSketch freshP5).draw).isSome = true :=
  ⟨sketches_assign_hooks.1 ("flow-fields", flowFieldsSketch)
      (by simp [sketches]) freshP5,
    sketches_assign_hooks.2.1 ("flow-fields", flowFieldsSketch)
      (by simp [sketches]) (by decide) freshP5⟩

/-! ### Claim C10: the Hilbert-curve generator (src/src/sketches/hilbertCurve.ts) -/

/-- A grid point of the Hilbert construction. -/
abbrev Pt := Int × Int

/-- One pass of the `hilbert` loop body (lines 32-58): the current point list
is copied into the four quadrants in order — transposed bottom-left,
translated top-left, translated top-right, and rotated/flipped bottom-right.
The source builds `newPoints` by four sequential pushes over `points`;
concatenation is written right-nested here, which is the same list. -/
def hilbertStep (s : Int) (points : List Pt) : List Pt :=
  (points.map fun q => (q.2, q.1)) ++
  ((points.map fun q => (q.1, q.2 + s)) ++
  ((points.map fun q => (q.1 + s, q.2 + s)) ++
  (points.map fun q => (2 * s - 1 - q.2, s - 1 - q.1))))

/-- The loop `for (let s = 1; s < n; s *= 2)` of `hilbert` (lines 32-58).
The guard carries the extra conjunct `0 < s` for termination; the source
enters the loop at `s = 1` and doubles `s`, so `0 < s` holds on every
reachable iteration and the conjunct never changes the result. -/
def hilbertLoop (n : Nat) (s : Nat) (points : List Pt) : List Pt :=
  if h : 0 < s ∧ s < n then hilbertLoop n (2 * s) (hilbertStep (s : Int) points)
  else points
termination_by n - s
decreasing_by omega

/-- `hilbert` (lines 29-61): runs the quadrant-copy loop from the single
point `(0, 0)` with `s` starting at 1. -/
def hilbert (n : Nat) : List Pt := hilbertLoop n 1 [((0 : Int), 0)]

/-- The list produced after exactly `k` passes of the loop body. -/
def hilbertIter : Nat → List Pt
  | 0 => [((0 : Int), 0)]
  | k + 1 => hilbertStep ((2 ^ k : Nat) : Int) (hilbertIter k)

/-- The loop body applied for pass exponents `j, j+1, ..., j+r-1`. -/
def hilbertPasses : Nat → Nat → List Pt → List Pt
  | _, 0, pts => pts
  | j, r + 1, pts => hilbertPasses (j + 1) r (hilbertStep ((2 ^ j : Nat) : Int) pts)

theorem hilbertLoop_eq_passes (r : Nat) :
    ∀ (j : Nat) (pts : List Pt),
      hilbertLoop (2 ^ (j + r)) (2 ^ j) pts = hilbertPasses j r pts := by
  induction r with
  | zero =>
    intro j pts
    rw [hilbertLoop, dif_neg]
    · rfl
    · simp
  | succ r ih =>
    intro j pts
    rw [hilbertLoop, dif_pos]
    · have h2 : 2 * 2 ^ j = 2 ^ (j + 1) := by rw [pow_succ]; ring
      have h3 : j + (r + 1) = (j + 1) + r := by omega
      rw [h2, h3, ih (j + 1) (hilbertStep _ pts)]
      rfl
    · exact ⟨Nat.one_le_two_pow, Nat.pow_lt_pow_right (by norm_num) (by omega)⟩

theorem hilbertPasses_succ (r : Nat) :
    ∀ (j : Nat) (pts : List Pt),
      hilbertPasses j (r + 1) pts =
        hilbertStep ((2 ^ (j + r) : Nat) : Int) (hilbertPasses j r pts) := by
  induction r with
  | zero => intro j pts; rfl
  | succ r ih =>
    intro j pts
    show hilbertPasses (j + 1) (r + 1) (hilbertStep _ pts) = _
    rw [ih (j + 1) (hilbertStep _ pts)]
    have h3 : (j + 1) + r = j + (r + 1) := by omega
    rw [h3]
    rfl

theorem hilbertPasses_eq_iter (k : Nat) :
    hilbertPasses 0 k [((0 : Int), 0)] = hilbertIter k := by
  induction k with
  | zero => rfl
  | succ k ih =>
    rw [hilbertPasses_succ k 0, ih]
    have h3 : 0 + k = k := Nat.zero_add k
    rw [h3]
    rfl

theorem hilbert_pow_eq_iter (k : Nat) : hilbert (2 ^ k) = hilbertIter k := by
  have h0 : hilbert (2 ^ k) = hilbertPasses 0 k [((0 : Int), 0)] := by
    have h := hilbertLoop_eq_passes k 0 [((0 : Int), 0)]
    simpa [hilbert] using h
  rw [h0, hilbertPasses_eq_iter]

/-- Manhattan adjacency: two grid points differing by exactly one unit step. -/
def HAdj (a b : Pt) : Prop := (a.1 - b.1).natAbs + (a.2 - b.2).natAbs = 1

/-- Invariant of the Hilbert construction at region size `s`: the point list
holds `s * s` pairwise-distinct points of the `s × s` grid, starts at the
bottom-left corner `(0, 0)`, ends at the bottom-right corner `(s - 1, 0)`,
and every two consecutive points are Manhattan-adjacent. -/
def HilbertInv (s : Nat) (pts : List Pt) : Prop :=
  pts.length = s * s ∧
  pts.head? = some (0, 0) ∧
  pts.getLast? = some ((s : Int) - 1, 0) ∧
  (∀ p ∈ pts, 0 ≤ p.1 ∧ p.1 < (s : Int) ∧ 0 ≤ p.2 ∧ p.2 < (s : Int)) ∧
  pts.Nodup ∧
  List.Chain' HAdj pts

theorem hilbertStep_inv (s : Nat) (hs : 1 ≤ s) (pts : List Pt)
    (h : HilbertInv s pts) :
    HilbertInv (2 * s) (hilbertStep ((s : Nat) : Int) pts) := by
  obtain ⟨hlen, hhead, hlast, hbnd, hnd, hch⟩ := h
  have hS : (1 : Int) ≤ (s : Int) := by exact_mod_cast hs
  -- bounds of the four quadrant copies
  have hbA : ∀ p ∈ pts.map (fun q : Pt => ((q.2, q.1) : Pt)),
      0 ≤ p.1 ∧ p.1 < (s : Int) ∧ 0 ≤ p.2 ∧ p.2 < (s : Int) := by
    intro p hp
    rw [List.mem_map] at hp
    obtain ⟨q, hq, rfl⟩ := hp
    obtain ⟨h1, h2, h3, h4⟩ := hbnd q hq
    exact ⟨h3, h4, h1, h2⟩
  have hbB : ∀ p ∈ pts.map (fun q : Pt => ((q.1, q.2 + (s : Int)) : Pt)),
      0 ≤ p.1 ∧ p.1 < (s : Int) ∧ (s : Int) ≤ p.2 ∧ p.2 < 2 * (s : Int) := by
    intro p hp
    rw [List.mem_map] at hp
    obtain ⟨q, hq, rfl⟩ := hp
    obtain ⟨h1, h2, h3, h4⟩ := hbnd q hq
    dsimp only
    refine ⟨h1, h2, by omega, by omega⟩
  have hbC : ∀ p ∈ pts.map
      (fun q : Pt => ((q.1 + (s : Int), q.2 + (s : Int)) : Pt)),
      (s : Int) ≤ p.1 ∧ p.1 < 2 * (s : Int) ∧ (s : Int) ≤ p.2 ∧
        p.2 < 2 * (s : Int) := by
    intro p hp
    rw [List.mem_map] at hp
    obtain ⟨q, hq, rfl⟩ := hp
    obtain ⟨h1, h2, h3, h4⟩ := hbnd q hq
    dsimp only
    refine ⟨by omega, by omega, by omega, by omega⟩
  have hbD : ∀ p ∈ pts.map
      (fun q : Pt =>
        ((2 * (s : Int) - 1 - q.2, (s : Int) - 1 - q.1) : Pt)),
      (s : Int) ≤ p.1 ∧ p.1 < 2 * (s : Int) ∧ 0 ≤ p.2 ∧ p.2 < (s : Int) := by
    intro p hp
    rw [List.mem_map] at hp
    obtain ⟨q, hq, rfl⟩ := hp
    obtain ⟨h1, h2, h3, h4⟩ := hbnd q hq
    dsimp only
    refine ⟨by omega, by omega, by omega, by omega⟩
  have hne : pts ≠ [] := by
    intro h0
    rw [h0] at hhead
    simp at hhead
  have hcast : ((2 * s : Nat) : Int) = 2 * (s : Int) := by push_cast; ring
  refine ⟨?_, ?_, ?_, ?_, ?_, ?_⟩
  · -- length
    simp only [hilbertStep, List.length_append, List.length_map, hlen]
    ring
  · -- head?
    rw [hilbertStep, List.head?_append, List.head?_map, hhead]
    rfl
  · -- getLast?
    rw [hilbertStep, List.getLast?_append, List.getLast?_append,
      List.getLast?_append, List.getLast?_map, hlast]
    simp only [Option.map_some', Option.or_some, Option.some.injEq,
      Prod.mk.injEq, hcast]
    constructor <;> ring
  · -- bounds
    intro p hp
    rw [hcast]
    simp only [hilbertStep, List.mem_append] at hp
    rcases hp with hp | hp | hp | hp
    · obtain ⟨h1, h2, h3, h4⟩ := hbA p hp
      exact ⟨h1, by omega, h3, by omega⟩
    · obtain ⟨h1, h2, h3, h4⟩ := hbB p hp
      exact ⟨h1, by omega, by omega, h4⟩
    · obtain ⟨h1, h2, h3, h4⟩ := hbC p hp
      exact ⟨by omega, h2, by omega, h4⟩
    · obtain ⟨h1, h2, h3, h4⟩ := hbD p hp
      exact ⟨by omega, h2, h3, by omega⟩
  · -- nodup
    have injA : Function.Injective (fun q : Pt => ((q.2, q.1) : Pt)) := by
      intro a b hab
      dsimp only at hab
      rw [Prod.mk.injEq] at hab
      exact Prod.ext hab.2 hab.1
    have injB : Function.Injective
        (fun q : Pt => ((q.1, q.2 + (s : Int)) : Pt)) := by
      intro a b hab
      dsimp only at hab
      rw [Prod.mk.injEq] at hab
      obtain ⟨h1, h2⟩ := hab
      exact Prod.ext h1 (by omega)
    have injC : Function.Injective
        (fun q : Pt => ((q.1 + (s : Int), q.2 + (s : Int)) : Pt)) := by
      intro a b hab
      dsimp only at hab
      rw [Prod.mk.injEq] at hab
      obtain ⟨h1, h2⟩ := hab
      exact Prod.ext (by omega) (by omega)
    have injD : Function.Injective
        (fun q : Pt =>
          ((2 * (s : Int) - 1 - q.2, (s : Int) - 1 - q.1) : Pt)) := by
      intro a b hab
      dsimp only at hab
      rw [Prod.mk.injEq] at hab
      obtain ⟨h1, h2⟩ := hab
      exact Prod.ext (by omega) (by omega)
    rw [hilbertStep]
    rw [List.nodup_append]
    refine ⟨hnd.map injA, ?_, ?_⟩
    · rw [List.nodup_append]
      refine ⟨hnd.map injB, ?_, ?_⟩
      · rw [List.nodup_append]
        refine ⟨hnd.map injC, hnd.map injD, ?_⟩
        · intro p hp1 hp2
          obtain ⟨_, _, h3, _⟩ := hbC p hp1
          obtain ⟨_, _, _, h4⟩ := hbD p hp2
          omega
      · intro p hp1 hp2
        rw [List.mem_append] at hp2
        obtain ⟨_, _, h3, _⟩ := hbB p hp1
        rcases hp2 with hp2 | hp2
        · obtain ⟨h1, _, _, _⟩ := hbC p hp2
          obtain ⟨_, h2, _, _⟩ := hbB p hp1
          omega
        · obtain ⟨_, _, _, h4⟩ := hbD p hp2
          omega
    · intro p hp1 hp2
      rw [List.mem_append] at hp2
      obtain ⟨_, h2, _, h4⟩ := hbA p hp1
      rcases hp2 with hp2 | hp2
      · obtain ⟨_, _, h5, _⟩ := hbB p hp2
        omega
      · rw [List.mem_append] at hp2
        rcases hp2 with hp2 | hp2
        · obtain ⟨h5, _, _, _⟩ := hbC p hp2
          omega
        · obtain ⟨h5, _, _, _⟩ := hbD p hp2
          omega
  · -- chain'
    have hchA : List.Chain' HAdj (pts.map fun q : Pt => ((q.2, q.1) : Pt)) := by
      rw [List.chain'_map]
      refine hch.imp ?_
      intro a b hab
      unfold HAdj at *
      dsimp only
      omega
    have hchB : List.Chain' HAdj
        (pts.map fun q : Pt => ((q.1, q.2 + (s : Int)) : Pt)) := by
      rw [List.chain'_map]
      refine hch.imp ?_
      intro a b hab
      unfold HAdj at *
      dsimp only
      omega
    have hchC : List.Chain' HAdj
        (pts.map fun q : Pt => ((q.1 + (s : Int), q.2 + (s : Int)) : Pt)) := by
      rw [List.chain'_map]
      refine hch.imp ?_
      intro a b hab
      unfold HAdj at *
      dsimp only
      omega
    have hchD : List.Chain' HAdj
        (pts.map fun q : Pt =>
          ((2 * (s : Int) - 1 - q.2, (s : Int) - 1 - q.1) : Pt)) := by
      rw [List.chain'_map]
      refine hch.imp ?_
      intro a b hab
      unfold HAdj at *
      dsimp only
      omega
    have hlastA : (pts.map fun q : Pt => ((q.2, q.1) : Pt)).getLast? =
        some ((0 : Int), (s : Int) - 1) := by
      rw [List.getLast?_map, hlast]
      rfl
    have hlastB :
        (pts.map fun q : Pt => ((q.1, q.2 + (s : Int)) : Pt)).getLast? =
        some ((s : Int) - 1, (s : Int)) := by
      rw [List.getLast?_map, hlast]
      simp
    have hlastC : (pts.map fun q : Pt =>
        ((q.1 + (s : Int), q.2 + (s : Int)) : Pt)).getLast? =
        some (2 * (s : Int) - 1, (s : Int)) := by
      rw [List.getLast?_map, hlast]
      simp only [Option.map_some', Option.some.injEq, Prod.mk.injEq]
      constructor <;> ring
    have hheadB :
        (pts.map fun q : Pt => ((q.1, q.2 + (s : Int)) : Pt)).head? =
        some ((0 : Int), (s : Int)) := by
      rw [List.head?_map, hhead]
      simp
    have hheadC : (pts.map fun q : Pt =>
        ((q.1 + (s : Int), q.2 + (s : Int)) : Pt)).head? =
        some ((s : Int), (s : Int)) := by
      rw [List.head?_map, hhead]
      simp
    have hheadD : (pts.map fun q : Pt =>
        ((2 * (s : Int) - 1 - q.2, (s : Int) - 1 - q.1) : Pt)).head? =
        some (2 * (s : Int) - 1, (s : Int) - 1) := by
      rw [List.head?_map, hhead]
      simp
    rw [hilbertStep]
    rw [List.chain'_append]
    refine ⟨hchA, ?_, ?_⟩
    · rw [List.chain'_append]
      refine ⟨hchB, ?_, ?_⟩
      · rw [List.chain'_append]
        refine ⟨hchC, hchD, ?_⟩
        · intro x hx y hy
          rw [hlastC] at hx
          rw [hheadD] at hy
          simp only [Option.mem_def, Option.some.injEq] at hx hy
          subst hx
          subst hy
          unfold HAdj
          dsimp only
          omega
      · intro x hx y hy
        rw [hlastB] at hx
        rw [List.head?_append, hheadC, Option.or_some] at hy
        simp only [Option.mem_def, Option.some.injEq] at hx hy
        subst hx
        subst hy
        unfold HAdj
        dsimp only
        omega
    · intro x hx y hy
      rw [hlastA] at hx
      rw [List.head?_append, hheadB, Option.or_some] at hy
      simp only [Option.mem_def, Option.some.injEq] at hx hy
      subst hx
      subst hy
      unfold HAdj
      dsimp only
      omega

theorem hilbertIter_inv (k : Nat) : HilbertInv (2 ^ k) (hilbertIter k) := by
  induction k with
  | zero =>
    refine ⟨rfl, rfl, by decide, by decide, by decide, ?_⟩
    exact List.chain'_singleton _
  | succ k ih =>
    have hstep := hilbertStep_inv (2 ^ k) Nat.one_le_two_pow (hilbertIter k) ih
    have h2 : (2 : Nat) ^ (k + 1) = 2 * 2 ^ k := by rw [pow_succ]; ring
    rw [h2]
    exact hstep

theorem hilbert_grid_coverage {n : Nat} (pts : List Pt)
    (hlen : pts.length = n * n) (hnd : pts.Nodup)
    (hbnd : ∀ p ∈ pts, 0 ≤ p.1 ∧ p.1 < (n : Int) ∧ 0 ≤ p.2 ∧ p.2 < (n : Int)) :
    ∀ x y : Int, 0 ≤ x → x < (n : Int) → 0 ≤ y → y < (n : Int) →
      (x, y) ∈ pts := by
  intro x y hx1 hx2 hy1 hy2
  classical
  have hsub : pts.toFinset ⊆
      Finset.Ico (0 : Int) (n : Int) ×ˢ Finset.Ico (0 : Int) (n : Int) := by
    intro p hp
    rw [List.mem_toFinset] at hp
    obtain ⟨h1, h2, h3, h4⟩ := hbnd p hp
    rw [Finset.mem_product, Finset.mem_Ico, Finset.mem_Ico]
    exact ⟨⟨h1, h2⟩, h3, h4⟩
  have hcard : (Finset.Ico (0 : Int) (n : Int) ×ˢ
      Finset.Ico (0 : Int) (n : Int)).card = n * n := by
    rw [Finset.card_product, Int.card_Ico]
    have : ((n : Int) - 0).toNat = n := by omega
    rw [this]
  have hcard2 : pts.toFinset.card = n * n := by
    rw [List.toFinset_card_of_nodup hnd, hlen]
  have heq : pts.toFinset =
      Finset.Ico (0 : Int) (n : Int) ×ˢ Finset.Ico (0 : Int) (n : Int) :=
    Finset.eq_of_subset_of_card_le hsub (by rw [hcard, hcard2])
  have hmem : (x, y) ∈ pts.toFinset := by
    rw [heq, Finset.mem_product, Finset.mem_Ico, Finset.mem_Ico]
    exact ⟨⟨hx1, hx2⟩, hy1, hy2⟩
  exact List.mem_toFinset.mp hmem

/-- C10: for every order `k ≥ 1` and `n = 2^k`, `hilbert n` is a list of
exactly `n * n` pairwise-distinct points that covers every cell of the
`n × n` grid, and every two consecutive points differ by exactly 1 in
Manhattan distance: the generated path is a connected space-filling
traversal. -/
theorem hilbert_space_filling (k : Nat) (hk : 1 ≤ k) :
    (hilbert (2 ^ k)).length = 2 ^ k * 2 ^ k ∧
    (hilbert (2 ^ k)).Nodup ∧
    (∀ x y : Int, 0 ≤ x → x < ((2 ^ k : Nat) : Int) → 0 ≤ y →
      y < ((2 ^ k : Nat) : Int) → (x, y) ∈ hilbert (2 ^ k)) ∧
    (∀ p ∈ hilbert (2 ^ k), 0 ≤ p.1 ∧ p.1 < ((2 ^ k : Nat) : Int) ∧
      0 ≤ p.2 ∧ p.2 < ((2 ^ k : Nat) : Int)) ∧
    List.Chain' HAdj (hilbert (2 ^ k)) := by
  obtain ⟨hlen, hhead, hlast, hbnd, hnd, hch⟩ := hilbertIter_inv k
  rw [hilbert_pow_eq_iter]
  exact ⟨hlen, hnd, hilbert_grid_coverage _ hlen hnd hbnd, hbnd, hch⟩

/-- Witness for C10 at order `k = 2` (`n = 4`): the path has the full
`16` points, is duplicate-free, and covers the sample cell `(3, 0)`. -/
theorem hilbert_space_filling_witness :
    1 ≤ 2 ∧ (hilbert (2 ^ 2)).length = 2 ^ 2 * 2 ^ 2 ∧
    (hilbert (2 ^ 2)).Nodup ∧ ((3 : Int), (0 : Int)) ∈ hilbert (2 ^ 2) :=
  ⟨by decide, (hilbert_space_filling 2 (by decide)).1,
    (hilbert_space_filling 2 (by decide)).2.1,
    (hilbert_space_filling 2 (by decide)).2.2.1 3 0 (by decide) (by decide)
      (by decide) (by decide)⟩

end GenArt
